import Mathlib

/-!
Verification development for the resume-screening web application
(frontend under frontend/src, scoring backend reachable through the
REST endpoints of api.ts).

The frontend arithmetic is embedded over an explicit JavaScript number
model (rationals plus NaN) so that the clamping and rounding done by the
components can be stated faithfully.  The scoring backend is not part of
the frontend sources; where a property depends on it, the scoring
aggregator is modelled from the specification (section 4.1 of spec.md)
and the corresponding definitions carry a doc comment saying so.
-/

/-! ## JavaScript numeric semantics

JavaScript numbers are modelled as either NaN or a rational value.
Infinities do not arise in the embedded fragments (scores are finite),
so they are not represented. -/

/-- A JavaScript number: NaN or a finite (rational) value. -/
inductive JSNum where
  | nan : JSNum
  | num : ℚ → JSNum
deriving DecidableEq

/-- JavaScript Math.round on a finite value: round half toward
positive infinity, as in round(0.5) = 1 and round(-0.5) = 0. -/
def jsRound (q : ℚ) : ℤ := ⌊q + 1/2⌋

/-- Math.round lifted to JavaScript numbers; Math.round(NaN) is NaN. -/
def jsRoundN : JSNum → JSNum
  | .nan => .nan
  | .num q => .num (jsRound q)

/-- The JavaScript expression x || 0: NaN and 0 are falsy and give 0,
every other number is returned unchanged. -/
def jsOrZero : JSNum → JSNum
  | .nan => .num 0
  | .num q => if q = 0 then .num 0 else .num q

/-- JavaScript Math.min on two numbers; NaN propagates. -/
def jsMin : JSNum → JSNum → JSNum
  | .nan, _ => .nan
  | _, .nan => .nan
  | .num a, .num b => .num (min a b)

/-- JavaScript Math.max on two numbers; NaN propagates. -/
def jsMax : JSNum → JSNum → JSNum
  | .nan, _ => .nan
  | _, .nan => .nan
  | .num a, .num b => .num (max a b)

/-! ## ScoreGauge component (frontend/src/components/ScoreGauge.tsx)

Both definitions of the component in that file compute
validScore = Math.max(0, Math.min(100, Math.round(score) || 0)). -/

/-- The validScore computation of ScoreGauge, exactly as written:
Math.max(0, Math.min(100, Math.round(score) || 0)). -/
def scoreGaugeValidScore (score : JSNum) : JSNum :=
  jsMax (.num 0) (jsMin (.num 100) (jsOrZero (jsRoundN score)))

/-- The value the claim predicts for the gauge: clamp the rounded score
into [0,100], with NaN mapped to 0. -/
def gaugeClaimValue : JSNum → ℤ
  | .nan => 0
  | .num q => max 0 (min 100 (jsRound q))

/-! ## String normalization helpers

Section 9 of the specification fixes the normalization the model uses:
lowercase, trim, exact match plus a fixed synonym dictionary. -/

/-- The whitespace characters relevant to the embedded strings, as
recognised by the JavaScript trim. -/
def isJSWhitespace (c : Char) : Bool :=
  c == ' ' || c == '\t' || c == '\n' || c == '\r'

/-- Drop leading whitespace characters. -/
def dropLeadWS : List Char → List Char
  | [] => []
  | c :: cs => if isJSWhitespace c then dropLeadWS cs else c :: cs

/-- The JavaScript String.prototype.trim: remove whitespace from both
ends. -/
def jsTrim (s : String) : String :=
  String.mk ((dropLeadWS ((dropLeadWS s.data).reverse)).reverse)

/-- The JavaScript String.prototype.toLowerCase on the embedded
strings. -/
def jsToLower (s : String) : String := String.mk (s.data.map Char.toLower)

/-- Whether the first character list begins the second one. -/
def charsLead : List Char → List Char → Bool
  | [], _ => true
  | _ :: _, [] => false
  | a :: as, b :: bs => a == b && charsLead as bs

/-- Whether the first character list occurs contiguously in the second. -/
def charsContain (p : List Char) : List Char → Bool
  | [] => p.isEmpty
  | b :: bs => charsLead p (b :: bs) || charsContain p bs

/-- Whether the needle string occurs as a substring of the hay string. -/
def strOccurs (needle hay : String) : Bool :=
  charsContain needle.toList hay.toList

/-- Normalization of a token: trim surrounding whitespace and lowercase. -/
def normToken (s : String) : String := jsToLower (jsTrim s)

/-- Modelled from the spec: the fixed synonym table of section 4.1
(the source of the scoring backend is not in the repository). -/
def synonymTable : List (String × String) :=
  [("ml", "machine learning"), ("js", "javascript"), ("ts", "typescript")]

/-- Canonical form of a token: normalization followed by the fixed
synonym dictionary. -/
def canonicalToken (s : String) : String :=
  let n := normToken s
  match synonymTable.find? (fun p => p.1 == n) with
  | some p => p.2
  | none => n

/-- Case-insensitive exact equality of two tokens through the synonym
table. -/
def tokenMatches (a b : String) : Bool := canonicalToken a == canonicalToken b

/-- The sublist of required tokens that some token of the pool matches. -/
def matchedTokens (required pool : List String) : List String :=
  required.filter (fun s => pool.any (fun t => tokenMatches t s))

/-- The sublist of required tokens that no token of the pool matches,
preserving the order of the requirement list. -/
def missingTokens (required pool : List String) : List String :=
  required.filter (fun s => !(pool.any (fun t => tokenMatches t s)))

/-! ## Data model (interfaces of frontend/src/lib/api.ts) -/

/-- The ATSCandidateProfile interface of api.ts (experience in years as
a rational). -/
structure ATSCandidateProfile where
  candidate_summary : String
  total_experience : ℚ
  relevant_experience : ℚ
  technical_skills : List String
  soft_skills : List String
  tools_technologies : List String
  certifications : List String
  education_details : List String
  job_titles : List String
  projects_responsibilities : List String
  achievements_awards : List String
  domain_experience : List String
  contact_information : List (String × String)
  resume_keywords : List String
  seniority_level : String
deriving DecidableEq

/-- The ATSJobProfile interface of api.ts. -/
structure ATSJobProfile where
  mandatory_skills : List String
  good_to_have_skills : List String
  required_experience : ℚ
  required_tools_technologies : List String
  role_responsibilities : List String
  education_requirements : List String
  preferred_certifications : List String
  required_industry_domain : List String
  relevant_keywords : List String
deriving DecidableEq

/-- The ATSScoreBreakdown interface of api.ts. -/
structure ATSScoreBreakdown where
  skill_match_score : ℚ
  experience_score : ℚ
  keyword_match_score : ℚ
  education_match_score : ℚ
  certifications_score : ℚ
  role_fit_score : ℚ
  tech_stack_match_score : ℚ
  matched_skills : List String
  missing_skills : List String
  matched_tools : List String
  missing_tools : List String
  matched_keywords : List String
  missing_keywords : List String
  matched_certifications : List String
  missing_certifications : List String
deriving DecidableEq

/-- The ATSResult interface of api.ts. -/
structure ATSResult where
  ats_score : ℚ
  status : String
  score_breakdown : ATSScoreBreakdown
  candidate_profile : ATSCandidateProfile
  job_profile : ATSJobProfile
  professional_summary : String
  improvement_suggestions : List String
  keywords_to_add : List String
  final_recommendation : String
deriving DecidableEq

/-! ## Scoring aggregator

Modelled from the spec: the scoring backend (FastAPI service behind
/api/ats/evaluate-resume) is not among the repository sources, so the
aggregator of section 4.1 of spec.md is modelled from the words of the
specification.  Where the specification leaves an implementer choice
open, the choice is documented on the definition. -/

/-- The combined skill pool of a candidate: technical plus soft skills. -/
def candidateSkills (c : ATSCandidateProfile) : List String :=
  c.technical_skills ++ c.soft_skills

/-- Modelled from the spec (4.1 item 1): mandatory skills of the job
matched by the candidate skill pool. -/
def matchedMandatorySkills (c : ATSCandidateProfile) (j : ATSJobProfile) : List String :=
  matchedTokens j.mandatory_skills (candidateSkills c)

/-- Modelled from the spec (4.1 item 1): good-to-have skills of the job
matched by the candidate skill pool. -/
def matchedGoodToHaveSkills (c : ATSCandidateProfile) (j : ATSJobProfile) : List String :=
  matchedTokens j.good_to_have_skills (candidateSkills c)

/-- Modelled from the spec (4.1 item 1 and the error-conditions
paragraph): matched mandatory skills over max(1, number of mandatory
skills), good-to-have matches at half credit, capped at 100; an empty
mandatory list defaults to full credit 100. -/
def skill_match_score (c : ATSCandidateProfile) (j : ATSJobProfile) : ℚ :=
  if j.mandatory_skills.isEmpty then 100
  else
    min 100
      ((((matchedMandatorySkills c j).length : ℚ)
          + ((matchedGoodToHaveSkills c j).length : ℚ) / 2)
        / max 1 (j.mandatory_skills.length : ℚ) * 100)

/-- Modelled from the spec (4.1 item 2): relevant experience over
max(1, required experience), scaled to 100 and capped at 100. -/
def experience_score (c : ATSCandidateProfile) (j : ATSJobProfile) : ℚ :=
  min 100 (c.relevant_experience / max 1 j.required_experience * 100)

/-- Modelled from the spec (4.1 item 3): the role keywords of the job
matched by a substring of some normalized candidate job title or
project line. -/
def matchedRoleKeywords (c : ATSCandidateProfile) (j : ATSJobProfile) : List String :=
  j.role_responsibilities.filter (fun s =>
    (c.job_titles ++ c.projects_responsibilities).any (fun t =>
      strOccurs (normToken s) (normToken t)))

/-- Modelled from the spec (4.1 item 3): keyword overlap over
max(1, total job role keywords), scaled to 100. -/
def role_fit_score (c : ATSCandidateProfile) (j : ATSJobProfile) : ℚ :=
  ((matchedRoleKeywords c j).length : ℚ)
    / max 1 (j.role_responsibilities.length : ℚ) * 100

/-- Modelled from the spec (4.1 item 4): rank of the degree named in an
education line, used to recognise a related but lower degree. -/
def degreeRank (s : String) : ℕ :=
  let n := normToken s
  if strOccurs "phd" n || strOccurs "doctor" n then 4
  else if strOccurs "master" n then 3
  else if strOccurs "bachelor" n then 2
  else if strOccurs "diploma" n then 1
  else 0

/-- Modelled from the spec (4.1 item 4): some candidate education entry
satisfies some job education requirement by substring match. -/
def educationFullMatch (c : ATSCandidateProfile) (j : ATSJobProfile) : Bool :=
  j.education_requirements.any (fun req =>
    c.education_details.any (fun e => strOccurs (normToken req) (normToken e)))

/-- Modelled from the spec (4.1 item 4): the candidate holds a related
but lower degree than some requirement. -/
def educationPartialMatch (c : ATSCandidateProfile) (j : ATSJobProfile) : Bool :=
  j.education_requirements.any (fun req =>
    c.education_details.any (fun e =>
      0 < degreeRank e && degreeRank e < degreeRank req))

/-- Modelled from the spec (4.1 item 4): 100 on a full match, a partial
score of 50 on a related lower degree, else 0.  Documented choice: an
empty requirement list defaults to full credit 100 (the no-requirement
convention the specification states for skills and certifications). -/
def education_match_score (c : ATSCandidateProfile) (j : ATSJobProfile) : ℚ :=
  if j.education_requirements.isEmpty then 100
  else if educationFullMatch c j then 100
  else if educationPartialMatch c j then 50
  else 0

/-- Modelled from the spec (4.1 item 5): matched over required
preferred certifications scaled to 100, and 100 if the job specifies
none. -/
def certifications_score (c : ATSCandidateProfile) (j : ATSJobProfile) : ℚ :=
  if j.preferred_certifications.isEmpty then 100
  else
    ((matchedTokens j.preferred_certifications c.certifications).length : ℚ)
      / max 1 (j.preferred_certifications.length : ℚ) * 100

/-- Modelled from the spec (4.1 item 6): keyword overlap ratio scaled
to 100. -/
def keyword_match_score (c : ATSCandidateProfile) (j : ATSJobProfile) : ℚ :=
  ((matchedTokens j.relevant_keywords c.resume_keywords).length : ℚ)
    / max 1 (j.relevant_keywords.length : ℚ) * 100

/-- Modelled from the spec (4.1 item 6): tool overlap ratio scaled to
100. -/
def tech_stack_match_score (c : ATSCandidateProfile) (j : ATSJobProfile) : ℚ :=
  ((matchedTokens j.required_tools_technologies c.tools_technologies).length : ℚ)
    / max 1 (j.required_tools_technologies.length : ℚ) * 100

/-- Modelled from the spec (4.1 item 6): average of the keyword and
tool components. -/
def keywords_tools_score (c : ATSCandidateProfile) (j : ATSJobProfile) : ℚ :=
  (keyword_match_score c j + tech_stack_match_score c j) / 2

/-- Modelled from the spec (section 3 and 4.1 item 7): the weighted sum
of the six sub-scores with the fixed weights 0.40, 0.25, 0.15, 0.10,
0.05, 0.05. -/
def atsWeightedSum (c : ATSCandidateProfile) (j : ATSJobProfile) : ℚ :=
  (40 / 100) * skill_match_score c j
    + (25 / 100) * experience_score c j
    + (15 / 100) * role_fit_score c j
    + (10 / 100) * education_match_score c j
    + (5 / 100) * certifications_score c j
    + (5 / 100) * keywords_tools_score c j

/-- Modelled from the spec (4.1 item 7): the final score is the
weighted sum clamped to [0,100]. -/
def ats_score (c : ATSCandidateProfile) (j : ATSJobProfile) : ℚ :=
  max 0 (min 100 (atsWeightedSum c j))

/-- The status enum of section 3 of the specification. -/
inductive ATSStatus where
  | SHORTLISTED
  | BORDERLINE
  | NOT_SHORTLISTED
deriving DecidableEq

/-- Modelled from the spec (4.1 item 8): status from the final score
with thresholds 80 and 50. -/
def statusOf (s : ℚ) : ATSStatus :=
  if 80 ≤ s then .SHORTLISTED
  else if 50 ≤ s then .BORDERLINE
  else .NOT_SHORTLISTED

/-- The status strings the frontend compares against: "SHORTLISTED" in
Dashboard.tsx and Results.tsx, "BORDERLINE – NEEDS IMPROVEMENT" in
getStatusBadgeVariant of ResponsiveLayout.tsx. -/
def statusString : ATSStatus → String
  | .SHORTLISTED => "SHORTLISTED"
  | .BORDERLINE => "BORDERLINE – NEEDS IMPROVEMENT"
  | .NOT_SHORTLISTED => "NOT SHORTLISTED"

/-- Modelled from the spec (4.1 item 9): the score breakdown with the
matched and missing sets derived from the job requirement sets. -/
def scoreBreakdown (c : ATSCandidateProfile) (j : ATSJobProfile) : ATSScoreBreakdown where
  skill_match_score := skill_match_score c j
  experience_score := experience_score c j
  keyword_match_score := keyword_match_score c j
  education_match_score := education_match_score c j
  certifications_score := certifications_score c j
  role_fit_score := role_fit_score c j
  tech_stack_match_score := tech_stack_match_score c j
  matched_skills := matchedMandatorySkills c j
  missing_skills := missingTokens j.mandatory_skills (candidateSkills c)
  matched_tools := matchedTokens j.required_tools_technologies c.tools_technologies
  missing_tools := missingTokens j.required_tools_technologies c.tools_technologies
  matched_keywords := matchedTokens j.relevant_keywords c.resume_keywords
  missing_keywords := missingTokens j.relevant_keywords c.resume_keywords
  matched_certifications := matchedTokens j.preferred_certifications c.certifications
  missing_certifications := missingTokens j.preferred_certifications c.certifications

/-- Modelled from the spec (4.1 item 10): suggestions generated
deterministically from the missing sets, capped at a fixed count. -/
def improvementSuggestions (c : ATSCandidateProfile) (j : ATSJobProfile) : List String :=
  ((missingTokens j.mandatory_skills (candidateSkills c)).map
    (fun s => "Add the missing skill: " ++ s)).take 5

/-- Modelled from the spec (section 4.1): the full evaluation result of
the pure function score(candidate, job). -/
def scoreATS (c : ATSCandidateProfile) (j : ATSJobProfile) : ATSResult where
  ats_score := ats_score c j
  status := statusString (statusOf (ats_score c j))
  score_breakdown := scoreBreakdown c j
  candidate_profile := c
  job_profile := j
  professional_summary := "Automated evaluation of " ++ c.candidate_summary
  improvement_suggestions := improvementSuggestions c j
  keywords_to_add := missingTokens j.relevant_keywords c.resume_keywords
  final_recommendation :=
    match statusOf (ats_score c j) with
    | .SHORTLISTED => "Recommended for interview."
    | .BORDERLINE => "Consider with reservations."
    | .NOT_SHORTLISTED => "Not recommended for this role."

/-! ## ApiClient (frontend/src/lib/api.ts) -/

/-- Outcome of the fetch to /api/ats/evaluate-resume: the connection
fails, or a response arrives with an ok flag, an HTTP status, an
optional detail field of the error JSON, and a body. -/
inductive FetchOutcome where
  | networkFailure
  | response (ok : Bool) (status : ℕ) (detail : Option String) (body : ATSResult)

/-- The message thrown by evaluateResumeWithATS when fetch itself
fails. -/
def connectErrorMessage : String :=
  "Unable to connect to server. Please ensure the backend is running on http://localhost:8000."

/-- ApiClient.evaluateResumeWithATS, api.ts lines 297 to 331: a non-ok
response throws the detail of the error JSON or an HTTP-status message,
a connection failure throws a connection message, and only the body of
an ok response is returned. -/
def evaluateResumeWithATS : FetchOutcome → Except String ATSResult
  | .networkFailure => .error connectErrorMessage
  | .response ok status detail body =>
    if ok then .ok body
    else .error (detail.getD ("HTTP error! status: " ++ toString status))

/-- ApiClient.evaluateBatchWithATS, api.ts lines 334 to 357: evaluate
the files one by one with evaluateResumeWithATS, push each successful
result, and on a per-file error log and continue with the other files.
The fetch outcome of each file is supplied by the environment map. -/
def evaluateBatchWithATS {F : Type} (fetchOf : F → FetchOutcome)
    (files : List F) : List ATSResult :=
  files.foldl
    (fun results f =>
      match evaluateResumeWithATS (fetchOf f) with
      | .ok result => results ++ [result]
      | .error _ => results)
    []

/-- A request to /api/ats/evaluate-resume: the form data (file and job
description) plus the cache-busting headers X-Timestamp (Date.now) and
X-Request-Id (Math.random), api.ts lines 301 to 316. -/
structure EvalRequest where
  file : String
  job_description : String
  timestamp : ℕ
  requestId : String

/-- The form-data body of the request: the file and the job
description.  The headers are not part of the body. -/
def requestBody (r : EvalRequest) : String × String :=
  (r.file, r.job_description)

/-- Modelled from the spec (sections 4.1 and 8): the backend behind
/api/ats/evaluate-resume extracts the two profiles from the request
body and applies the referentially transparent scoring aggregator; the
cache-busting headers are not inputs of the evaluation.  The extractors
stand for the external AI extraction service. -/
def evaluateRequest (extractCandidate : String → ATSCandidateProfile)
    (extractJob : String → ATSJobProfile) (r : EvalRequest) : ATSResult :=
  scoreATS (extractCandidate (requestBody r).1) (extractJob (requestBody r).2)

/-! ## Index page (frontend/src/components/ResponsiveLayout.tsx,
handleScreening at lines 262 to 383) -/

/-- The outcome of one run of handleScreening: the early return for
missing inputs, a thrown validation error, or the evaluation call with
the final job description text. -/
inductive ScreeningOutcome where
  | missingInput
  | validationError (msg : String)
  | evaluateCall (jobDescription : String)
deriving DecidableEq

/-- The final job description of handleScreening: the trimmed pasted
text, or the file content when the trimmed text is empty and a file was
uploaded. -/
def finalJobDescription (jobDescText : String) (jobDescFile : Option String) : String :=
  if jsTrim jobDescText = "" then
    match jobDescFile with
    | some content => content
    | none => jsTrim jobDescText
  else jsTrim jobDescText

/-- Index.handleScreening: the early return when resume or job
description is missing, the length check against 50 on the final job
description, and otherwise the call to evaluateResumeWithATS. -/
def handleScreening (resumeFile : Option String) (jobDescText : String)
    (jobDescFile : Option String) : ScreeningOutcome :=
  if resumeFile.isNone
      || !(decide (0 < (jsTrim jobDescText).length) || jobDescFile.isSome) then
    .missingInput
  else if (finalJobDescription jobDescText jobDescFile).length < 50 then
    .validationError "Job description must be at least 50 characters long"
  else .evaluateCall (finalJobDescription jobDescText jobDescFile)

/-! ## ATSEvaluationPage (ResponsiveLayout.tsx lines 1142 to 1152 and
1351 to 1358) -/

/-- getStatusBadgeVariant of ATSEvaluationPage. -/
def getStatusBadgeVariant (status : String) : String :=
  if status = "SHORTLISTED" then "default"
  else if status = "BORDERLINE – NEEDS IMPROVEMENT" then "secondary"
  else "destructive"

/-- getScoreColor of ATSEvaluationPage. -/
def getScoreColor (score : ℚ) : String :=
  if 80 ≤ score then "text-green-600"
  else if 50 ≤ score then "text-yellow-600"
  else "text-red-600"

/-- The Keywords and Tools row value of the ATSEvaluationPage score
breakdown (ResponsiveLayout.tsx line 1357): the plain average of the
keyword and tech-stack components. -/
def keywordsToolsRowATSPage (k t : ℚ) : ℚ := (k + t) / 2

/-! ## Results page (frontend/src/pages/Results.tsx) -/

/-- The Keywords and Tools row value of the Results page score
breakdown (Results.tsx line 472): Math.round of the average. -/
def keywordsToolsRowResults (k t : ℚ) : ℤ := jsRound ((k + t) / 2)

/-- The six weights displayed next to the score breakdown rows of
Results.tsx lines 467 to 472: 40, 25, 15, 10, 5 and 5 percent. -/
def resultsBreakdownWeights : List ℚ :=
  [40 / 100, 25 / 100, 15 / 100, 10 / 100, 5 / 100, 5 / 100]

/-- The six sub-scores in the order of the Results.tsx breakdown rows. -/
def subScoreVector (c : ATSCandidateProfile) (j : ATSJobProfile) : List ℚ :=
  [skill_match_score c j, experience_score c j, role_fit_score c j,
    education_match_score c j, certifications_score c j, keywords_tools_score c j]

/-! ## HR Dashboard (frontend/src/pages/hr/Dashboard.tsx) -/

/-- The fields of the ScoringResult record of api.ts that the claims
are about: the position in the upload order, the rounded total score of
handleAnalyze line 291, and the shortlist flag of line 296. -/
structure ScoringResult where
  idx : ℕ
  total_score : ℤ
  is_shortlisted : Bool
deriving DecidableEq

/-- The conversion of one ATSResult in handleAnalyze lines 288 to 303:
total_score is Math.round(ats_score) and is_shortlisted compares the
status string with SHORTLISTED. -/
def toScoringResult (idx : ℕ) (a : ATSResult) : ScoringResult where
  idx := idx
  total_score := jsRound a.ats_score
  is_shortlisted := a.status == "SHORTLISTED"

/-- A stable insert: place x before the first y with le x y, where
le a b states that the sort comparator on (a, b) is at most zero.  This
is the standard stable insertion; Array.prototype.sort is specified to
be stable, and a stable sort under a consistent comparator determines
the output uniquely, so this models the JavaScript sort. -/
def jsOrderedInsert {α : Type} (le : α → α → Bool) (x : α) : List α → List α
  | [] => [x]
  | y :: ys => if le x y then x :: y :: ys else y :: jsOrderedInsert le x ys

/-- The stable sort of Array.prototype.sort under the comparator
encoded by le. -/
def jsStableSort {α : Type} (le : α → α → Bool) : List α → List α
  | [] => []
  | x :: xs => jsOrderedInsert le x (jsStableSort le xs)

/-- The comparator of handleAnalyze line 309, (a, b) => b.total_score -
a.total_score, as the predicate comparator at most zero. -/
def dashboardSortLE (a b : ScoringResult) : Bool :=
  decide (b.total_score ≤ a.total_score)

/-- The sort of handleAnalyze line 309: stable descending by
total_score. -/
def handleAnalyzeSort (rs : List ScoringResult) : List ScoringResult :=
  jsStableSort dashboardSortLE rs

/-- The comparator of sortedResults in Dashboard.tsx line 367,
(a, b) => b.score - a.score: ScoringResult has no score field, so the
subtraction is NaN on every pair and the sort treats it as zero, which
makes the comparator constantly at most zero. -/
def sortedResultsLE (_ _ : ScoringResult) : Bool := true

/-- sortedResults of Dashboard.tsx line 367: the stable sort of the
results under the constant comparator. -/
def sortedResults (rs : List ScoringResult) : List ScoringResult :=
  jsStableSort sortedResultsLE rs

/-- The shortlisted count displayed in the Candidate Rankings header,
Dashboard.tsx line 551: results with total_score at least 70. -/
def shortlistedCountDisplay (rs : List ScoringResult) : ℕ :=
  (rs.filter (fun r => decide (70 ≤ r.total_score))).length

/-- The per-card shortlist flag of Dashboard.tsx line 563:
is_shortlisted or total_score at least 80. -/
def isShortlistedCard (r : ScoringResult) : Bool :=
  r.is_shortlisted || decide (80 ≤ r.total_score)

/-- The strict ranking order the sorted dashboard list realises:
strictly higher score first, ties by upload position. -/
def rankedBefore (a b : ScoringResult) : Prop :=
  b.total_score < a.total_score ∨ (b.total_score = a.total_score ∧ a.idx < b.idx)

/-! ## Concrete values for witnesses and counterexamples -/

/-- An all-empty score breakdown used for literal results. -/
def emptyBreakdown : ATSScoreBreakdown where
  skill_match_score := 0
  experience_score := 0
  keyword_match_score := 0
  education_match_score := 0
  certifications_score := 0
  role_fit_score := 0
  tech_stack_match_score := 0
  matched_skills := []
  missing_skills := []
  matched_tools := []
  missing_tools := []
  matched_keywords := []
  missing_keywords := []
  matched_certifications := []
  missing_certifications := []

/-- The candidate of the worked example in section 8 of the
specification: technical skills React and JavaScript, 8 years of
relevant experience. -/
def sampleCandidate : ATSCandidateProfile where
  candidate_summary := "Frontend engineer with React experience"
  total_experience := 8
  relevant_experience := 8
  technical_skills := ["React", "JavaScript"]
  soft_skills := []
  tools_technologies := ["Git"]
  certifications := []
  education_details := ["Bachelor of Science in Computer Science"]
  job_titles := ["Frontend Developer"]
  projects_responsibilities := []
  achievements_awards := []
  domain_experience := []
  contact_information := []
  resume_keywords := ["react"]
  seniority_level := "Senior"

/-- The job of the worked example in section 8 of the specification:
mandatory skills React and TypeScript, 5 years required. -/
def sampleJob : ATSJobProfile where
  mandatory_skills := ["React", "TypeScript"]
  good_to_have_skills := []
  required_experience := 5
  required_tools_technologies := []
  role_responsibilities := []
  education_requirements := []
  preferred_certifications := []
  required_industry_domain := []
  relevant_keywords := []

/-- A literal successful evaluation result used in the batch
counterexample. -/
def sampleOkResult : ATSResult where
  ats_score := 90
  status := "SHORTLISTED"
  score_breakdown := emptyBreakdown
  candidate_profile := sampleCandidate
  job_profile := sampleJob
  professional_summary := "Strong match for the role"
  improvement_suggestions := []
  keywords_to_add := []
  final_recommendation := "Recommended for interview."

/-- A batch environment of two resumes in which resume 0 fails with an
HTTP 500 and resume 1 succeeds. -/
def sampleBatchFetch : ℕ → FetchOutcome := fun n =>
  if n = 0 then .response false 500 (some "ATS evaluation failed") sampleOkResult
  else .response true 200 none sampleOkResult

/-- A borderline dashboard entry: rounded score 70, status not
SHORTLISTED. -/
def borderlineResult : ScoringResult where
  idx := 0
  total_score := 70
  is_shortlisted := false

/-- A concrete upload batch for the ranking witness, containing a tie
on score 80 between positions 0 and 2. -/
def sampleRanking : List ScoringResult :=
  [⟨0, 80, true⟩, ⟨1, 90, true⟩, ⟨2, 80, false⟩]

/-! ## Helper lemmas -/

/-- The batch fold with any accumulator collects the successful results
in order after the accumulator. -/
theorem batchFold_eq_filterMap {F : Type} (fetchOf : F → FetchOutcome)
    (files : List F) (acc : List ATSResult) :
    files.foldl
      (fun results f =>
        match evaluateResumeWithATS (fetchOf f) with
        | .ok result => results ++ [result]
        | .error _ => results)
      acc
      = acc ++ files.filterMap (fun f => (evaluateResumeWithATS (fetchOf f)).toOption) := by
  induction files generalizing acc with
  | nil => simp
  | cons f fs ih =>
    simp only [List.foldl_cons, List.filterMap_cons]
    cases h : evaluateResumeWithATS (fetchOf f) with
    | ok r => rw [ih]; simp [Except.toOption]
    | error e => rw [ih]; simp [Except.toOption]

/-- evaluateBatchWithATS is the filterMap of the single evaluation. -/
theorem evaluateBatchWithATS_eq_filterMap {F : Type} (fetchOf : F → FetchOutcome)
    (files : List F) :
    evaluateBatchWithATS fetchOf files
      = files.filterMap (fun f => (evaluateResumeWithATS (fetchOf f)).toOption) := by
  unfold evaluateBatchWithATS
  rw [batchFold_eq_filterMap]
  simp

/-- A stable insert permutes to consing the new element. -/
theorem jsOrderedInsert_perm {α : Type} (le : α → α → Bool) (x : α) (l : List α) :
    (jsOrderedInsert le x l).Perm (x :: l) := by
  induction l with
  | nil => exact List.Perm.refl _
  | cons y ys ih =>
    rw [jsOrderedInsert]
    by_cases h : le x y
    · rw [if_pos h]
    · rw [if_neg h]
      exact (ih.cons y).trans (List.Perm.swap x y ys)

/-- The stable sort is a permutation of its input. -/
theorem jsStableSort_perm {α : Type} (le : α → α → Bool) (l : List α) :
    (jsStableSort le l).Perm l := by
  induction l with
  | nil => exact List.Perm.refl _
  | cons x xs ih =>
    rw [jsStableSort]
    exact (jsOrderedInsert_perm le x (jsStableSort le xs)).trans (ih.cons x)

/-- Inserting under a constant-true comparator is consing. -/
theorem jsOrderedInsert_const_true {α : Type} (x : α) (l : List α) :
    jsOrderedInsert (fun _ _ => true) x l = x :: l := by
  cases l <;> simp [jsOrderedInsert]

/-- Sorting under a constant-true comparator is the identity: this is
the sort of Dashboard.tsx line 367, whose comparator evaluates to NaN
on every pair and is therefore treated as zero. -/
theorem jsStableSort_const_true {α : Type} (l : List α) :
    jsStableSort (fun _ _ => true) l = l := by
  induction l with
  | nil => rfl
  | cons x xs ih => rw [jsStableSort, ih, jsOrderedInsert_const_true]

/-- Stable descending insert preserves the ranking order, provided the
inserted element comes earlier in upload order than the whole list. -/
theorem jsOrderedInsert_pairwise_ranked (x : ScoringResult) (l : List ScoringResult)
    (hs : l.Pairwise rankedBefore) (hidx : ∀ y ∈ l, x.idx < y.idx) :
    (jsOrderedInsert dashboardSortLE x l).Pairwise rankedBefore := by
  induction l with
  | nil => simp [jsOrderedInsert, rankedBefore]
  | cons y ys ih =>
    rcases List.pairwise_cons.mp hs with ⟨hy, hys⟩
    rw [jsOrderedInsert]
    by_cases hle : dashboardSortLE x y
    · rw [if_pos hle]
      refine List.pairwise_cons.mpr ⟨?_, hs⟩
      intro z hz
      have hxy : y.total_score ≤ x.total_score := by
        simpa [dashboardSortLE] using hle
      have hzx : z.total_score ≤ x.total_score := by
        rcases List.mem_cons.mp hz with rfl | hz'
        · exact hxy
        · rcases hy z hz' with h | ⟨h, _⟩
          · exact le_trans (le_of_lt h) hxy
          · exact le_trans (le_of_eq h) hxy
      rcases lt_or_eq_of_le hzx with h | h
      · exact Or.inl h
      · exact Or.inr ⟨h, hidx z hz⟩
    · rw [if_neg hle]
      have hyx : x.total_score < y.total_score := by
        have := hle
        simp only [dashboardSortLE, decide_eq_true_eq] at this
        omega
      refine List.pairwise_cons.mpr
        ⟨?_, ih hys (fun z hz => hidx z (List.mem_cons_of_mem _ hz))⟩
      intro z hz
      have hmem := (jsOrderedInsert_perm dashboardSortLE x ys).mem_iff.mp hz
      rcases List.mem_cons.mp hmem with rfl | hz'
      · exact Or.inl hyx
      · exact hy z hz'

/-- The handleAnalyze sort produces a list ordered by the ranking
relation whenever the input carries strictly increasing upload
positions. -/
theorem handleAnalyzeSort_pairwise (rs : List ScoringResult)
    (hidx : rs.Pairwise (fun a b => a.idx < b.idx)) :
    (handleAnalyzeSort rs).Pairwise rankedBefore := by
  unfold handleAnalyzeSort
  induction rs with
  | nil => simp [jsStableSort]
  | cons x xs ih =>
    rcases List.pairwise_cons.mp hidx with ⟨hx, hxs⟩
    rw [jsStableSort]
    refine jsOrderedInsert_pairwise_ranked x _ (ih hxs) ?_
    intro y hy
    exact hx y ((jsStableSort_perm dashboardSortLE xs).mem_iff.mp hy)

/-- The denominator max(1, n) of the overlap formulas is positive. -/
theorem maxOneCast_pos (n : ℕ) : (0 : ℚ) < max 1 (n : ℚ) :=
  lt_of_lt_of_le one_pos (le_max_left _ _)

/-- The scaled overlap formula is nonnegative. -/
theorem overlapScore_nonneg (m n : ℕ) :
    0 ≤ (m : ℚ) / max 1 (n : ℚ) * 100 :=
  mul_nonneg (div_nonneg (Nat.cast_nonneg m) (le_of_lt (maxOneCast_pos n))) (by norm_num)

/-- The scaled overlap formula is at most 100 when the numerator counts
a sublist of the denominator list. -/
theorem overlapScore_le (m n : ℕ) (h : m ≤ n) :
    (m : ℚ) / max 1 (n : ℚ) * 100 ≤ 100 := by
  have hpos := maxOneCast_pos n
  have hm : (m : ℚ) ≤ max 1 (n : ℚ) :=
    le_trans (by exact_mod_cast h) (le_max_right _ _)
  have h1 : (m : ℚ) / max 1 (n : ℚ) ≤ 1 := (div_le_one hpos).mpr hm
  calc (m : ℚ) / max 1 (n : ℚ) * 100 ≤ 1 * 100 :=
        mul_le_mul_of_nonneg_right h1 (by norm_num)
    _ = 100 := by norm_num

/-- The skill sub-score lies in [0, 100]. -/
theorem skill_match_score_bounds (c : ATSCandidateProfile) (j : ATSJobProfile) :
    0 ≤ skill_match_score c j ∧ skill_match_score c j ≤ 100 := by
  unfold skill_match_score
  split
  · norm_num
  · constructor
    · refine le_min (by norm_num) ?_
      refine mul_nonneg (div_nonneg ?_ (le_of_lt (maxOneCast_pos _))) (by norm_num)
      positivity
    · exact min_le_left _ _

/-- The experience sub-score lies in [0, 100] for a nonnegative
relevant experience. -/
theorem experience_score_bounds (c : ATSCandidateProfile) (j : ATSJobProfile)
    (h : 0 ≤ c.relevant_experience) :
    0 ≤ experience_score c j ∧ experience_score c j ≤ 100 := by
  unfold experience_score
  constructor
  · refine le_min (by norm_num) ?_
    have hpos : (0 : ℚ) < max 1 j.required_experience :=
      lt_of_lt_of_le one_pos (le_max_left _ _)
    exact mul_nonneg (div_nonneg h (le_of_lt hpos)) (by norm_num)
  · exact min_le_left _ _

/-- The role-fit sub-score lies in [0, 100]. -/
theorem role_fit_score_bounds (c : ATSCandidateProfile) (j : ATSJobProfile) :
    0 ≤ role_fit_score c j ∧ role_fit_score c j ≤ 100 := by
  unfold role_fit_score
  exact ⟨overlapScore_nonneg _ _,
    overlapScore_le _ _ (List.length_filter_le _ _)⟩

/-- The education sub-score lies in [0, 100]. -/
theorem education_match_score_bounds (c : ATSCandidateProfile) (j : ATSJobProfile) :
    0 ≤ education_match_score c j ∧ education_match_score c j ≤ 100 := by
  unfold education_match_score
  split_ifs <;> norm_num

/-- The certifications sub-score lies in [0, 100]. -/
theorem certifications_score_bounds (c : ATSCandidateProfile) (j : ATSJobProfile) :
    0 ≤ certifications_score c j ∧ certifications_score c j ≤ 100 := by
  unfold certifications_score
  split
  · norm_num
  · exact ⟨overlapScore_nonneg _ _,
      overlapScore_le _ _ (List.length_filter_le _ _)⟩

/-- The keyword component lies in [0, 100]. -/
theorem keyword_match_score_bounds (c : ATSCandidateProfile) (j : ATSJobProfile) :
    0 ≤ keyword_match_score c j ∧ keyword_match_score c j ≤ 100 := by
  unfold keyword_match_score
  exact ⟨overlapScore_nonneg _ _,
    overlapScore_le _ _ (List.length_filter_le _ _)⟩

/-- The tool component lies in [0, 100]. -/
theorem tech_stack_match_score_bounds (c : ATSCandidateProfile) (j : ATSJobProfile) :
    0 ≤ tech_stack_match_score c j ∧ tech_stack_match_score c j ≤ 100 := by
  unfold tech_stack_match_score
  exact ⟨overlapScore_nonneg _ _,
    overlapScore_le _ _ (List.length_filter_le _ _)⟩

/-- The keywords-and-tools sub-score lies in [0, 100]. -/
theorem keywords_tools_score_bounds (c : ATSCandidateProfile) (j : ATSJobProfile) :
    0 ≤ keywords_tools_score c j ∧ keywords_tools_score c j ≤ 100 := by
  unfold keywords_tools_score
  have h1 := keyword_match_score_bounds c j
  have h2 := tech_stack_match_score_bounds c j
  constructor <;> [linarith [h1.1, h2.1]; linarith [h1.2, h2.2]]

/-- The weighted sum of the six sub-scores lies in [0, 100]. -/
theorem atsWeightedSum_bounds (c : ATSCandidateProfile) (j : ATSJobProfile)
    (h : 0 ≤ c.relevant_experience) :
    0 ≤ atsWeightedSum c j ∧ atsWeightedSum c j ≤ 100 := by
  unfold atsWeightedSum
  have h1 := skill_match_score_bounds c j
  have h2 := experience_score_bounds c j h
  have h3 := role_fit_score_bounds c j
  have h4 := education_match_score_bounds c j
  have h5 := certifications_score_bounds c j
  have h6 := keywords_tools_score_bounds c j
  constructor
  · linarith [h1.1, h2.1, h3.1, h4.1, h5.1, h6.1]
  · linarith [h1.2, h2.2, h3.2, h4.2, h5.2, h6.2]

/-- The clamp of the final score is the identity on the weighted sum. -/
theorem ats_score_eq_weightedSum (c : ATSCandidateProfile) (j : ATSJobProfile)
    (h : 0 ≤ c.relevant_experience) :
    ats_score c j = atsWeightedSum c j := by
  have hb := atsWeightedSum_bounds c j h
  unfold ats_score
  rw [min_eq_right hb.2, max_eq_right hb.1]

/-! ## Claim theorems -/

/-- C10: the ScoreGauge display is total over all numeric inputs: for
every input score, including negative values, values above 100 and NaN,
the displayed value equals max(0, min(100, round(score))), an integer
in [0,100], with NaN mapped to 0. -/
theorem score_gauge_clamps_total (s : JSNum) :
    scoreGaugeValidScore s = .num ((gaugeClaimValue s : ℤ) : ℚ)
      ∧ 0 ≤ gaugeClaimValue s ∧ gaugeClaimValue s ≤ 100 := by
  cases s with
  | nan =>
    refine ⟨?_, le_refl 0, by norm_num [gaugeClaimValue]⟩
    simp only [scoreGaugeValidScore, jsRoundN, jsOrZero, jsMin, jsMax, gaugeClaimValue]
    norm_num
  | num q =>
    refine ⟨?_, le_max_left 0 _, max_le (by norm_num) (min_le_left 100 _)⟩
    simp only [scoreGaugeValidScore, jsRoundN, jsOrZero, gaugeClaimValue]
    by_cases h0 : ((jsRound q : ℤ) : ℚ) = 0
    · rw [if_pos h0]
      have hz : jsRound q = 0 := by exact_mod_cast h0
      simp only [jsMin, jsMax, hz]
      norm_num
    · rw [if_neg h0]
      simp only [jsMin, jsMax, JSNum.num.injEq]
      push_cast
      ring_nf

/-- C9 counterexample: with keyword component 70 and tech-stack
component 71, the Results page Keywords and Tools row shows
Math.round(70.5) = 71, which differs from the arithmetic mean 70.5. -/
theorem results_keywords_tools_rounds :
    keywordsToolsRowResults 70 71 = 71
      ∧ ((70 : ℚ) + 71) / 2 ≠ (71 : ℚ) := by
  constructor
  · unfold keywordsToolsRowResults jsRound
    norm_num
  · norm_num

/-- C9 amended: the ATSEvaluationPage Keywords and Tools row equals the
arithmetic mean of the keyword and tech-stack components exactly, while
the Results page row equals Math.round of that mean, hence is within
one half of it. -/
theorem keywords_tools_row_values (k t : ℚ) :
    keywordsToolsRowATSPage k t = (k + t) / 2
      ∧ |(keywordsToolsRowResults k t : ℚ) - (k + t) / 2| ≤ 1 / 2 := by
  refine ⟨rfl, ?_⟩
  unfold keywordsToolsRowResults jsRound
  rw [abs_le]
  constructor
  · have h := Int.sub_one_lt_floor ((k + t) / 2 + 1 / 2)
    linarith
  · have h := Int.floor_le ((k + t) / 2 + 1 / 2)
    linarith

/-- C8: a failed extraction or evaluation call propagates as a
distinct error: a successful value is returned exactly when an ok
response arrived and then it is the response body, a connection
failure raises the connection message, and a non-ok response raises
the detail of the error JSON or an HTTP-status message; no score is
fabricated on failure. -/
theorem extraction_failure_propagates :
    (∀ o r, evaluateResumeWithATS o = .ok r
        ↔ ∃ status detail, o = .response true status detail r)
      ∧ evaluateResumeWithATS .networkFailure = .error connectErrorMessage
      ∧ (∀ status detail body,
          evaluateResumeWithATS (.response false status detail body)
            = .error (detail.getD ("HTTP error! status: " ++ toString status))) := by
  refine ⟨?_, rfl, fun _ _ _ => rfl⟩
  intro o r
  constructor
  · intro h
    cases o with
    | networkFailure => exact Except.noConfusion h
    | response ok status detail body =>
      cases ok with
      | true =>
        have hb : body = r := by
          simpa [evaluateResumeWithATS] using h
        exact ⟨status, detail, by rw [hb]⟩
      | false => simp [evaluateResumeWithATS] at h
  · rintro ⟨status, detail, rfl⟩
    rfl

/-- C6: the evaluation is deterministic and stateless: two requests
with the same form-data body (file and job description) produce
identical ATSResult values in all fields, whatever the cache-busting
timestamp and request-id headers are. -/
theorem evaluate_request_deterministic
    (extractCandidate : String → ATSCandidateProfile)
    (extractJob : String → ATSJobProfile) (r₁ r₂ : EvalRequest)
    (h : requestBody r₁ = requestBody r₂) :
    evaluateRequest extractCandidate extractJob r₁
      = evaluateRequest extractCandidate extractJob r₂ := by
  unfold evaluateRequest
  rw [h]

/-- Witness for C6: two concrete requests that differ only in timestamp
and request id evaluate to the same result. -/
theorem evaluate_request_deterministic_witness :
    requestBody ⟨"resume.pdf", "job description text", 1700000000, "abc123"⟩
        = requestBody ⟨"resume.pdf", "job description text", 1700000001, "xyz789"⟩
      ∧ evaluateRequest (fun _ => sampleCandidate) (fun _ => sampleJob)
            ⟨"resume.pdf", "job description text", 1700000000, "abc123"⟩
          = evaluateRequest (fun _ => sampleCandidate) (fun _ => sampleJob)
            ⟨"resume.pdf", "job description text", 1700000001, "xyz789"⟩ :=
  ⟨rfl, evaluate_request_deterministic (fun _ => sampleCandidate) (fun _ => sampleJob)
    ⟨"resume.pdf", "job description text", 1700000000, "abc123"⟩
    ⟨"resume.pdf", "job description text", 1700000001, "xyz789"⟩ rfl⟩

/-- C3: evaluating a resume inside a batch yields exactly its single
evaluation: the batch output around any one file decomposes into the
batch of the files before it, the single evaluation of that file, and
the batch of the files after it, with no cross-candidate influence. -/
theorem batch_result_pointwise_single {F : Type} (fetchOf : F → FetchOutcome)
    (files₁ files₂ : List F) (f : F) :
    evaluateBatchWithATS fetchOf (files₁ ++ f :: files₂)
      = evaluateBatchWithATS fetchOf files₁
        ++ (evaluateResumeWithATS (fetchOf f)).toOption.toList
        ++ evaluateBatchWithATS fetchOf files₂ := by
  simp only [evaluateBatchWithATS_eq_filterMap, List.filterMap_append,
    List.filterMap_cons]
  cases evaluateResumeWithATS (fetchOf f) <;> simp [Except.toOption]

/-- C5 counterexample: in a batch of two resumes in which the first one
fails, the output is just the single successful result, so the failed
resume is not accounted for in the output at all. -/
theorem batch_output_misses_failed_item :
    evaluateBatchWithATS sampleBatchFetch [0, 1] = [sampleOkResult]
      ∧ (evaluateBatchWithATS sampleBatchFetch [0, 1]).length
          ≠ ([0, 1] : List ℕ).length := by
  have h : evaluateBatchWithATS sampleBatchFetch [0, 1] = [sampleOkResult] := rfl
  refine ⟨h, ?_⟩
  rw [h]
  decide

/-- C5 amended: a failure for one resume never aborts the remaining
resumes: the batch output is exactly the list of successful results in
input order, and every resume whose evaluation succeeds contributes its
result; failed resumes are skipped silently (logged to the console
only) rather than reported per item in the output. -/
theorem batch_collects_successes_skips_failures {F : Type}
    (fetchOf : F → FetchOutcome) (files : List F) :
    evaluateBatchWithATS fetchOf files
        = files.filterMap (fun f => (evaluateResumeWithATS (fetchOf f)).toOption)
      ∧ ∀ f ∈ files, ∀ r, evaluateResumeWithATS (fetchOf f) = .ok r
          → r ∈ evaluateBatchWithATS fetchOf files := by
  refine ⟨evaluateBatchWithATS_eq_filterMap fetchOf files, ?_⟩
  intro f hf r h
  rw [evaluateBatchWithATS_eq_filterMap]
  exact List.mem_filterMap.mpr ⟨f, hf, by simp [h, Except.toOption]⟩

/-- Witness for C5: in the concrete two-resume batch with a failing
first item, the successful second item still contributes its result. -/
theorem batch_collects_successes_skips_failures_witness :
    (1 ∈ ([0, 1] : List ℕ))
      ∧ sampleOkResult ∈ evaluateBatchWithATS sampleBatchFetch [0, 1] :=
  ⟨by decide,
    (batch_collects_successes_skips_failures sampleBatchFetch [0, 1]).2 1
      (by decide) sampleOkResult rfl⟩

/-- C1: for every candidate and job profile (with a nonnegative
relevant experience, as experience is measured in years), the final
ats_score lies in [0,100] and equals the weighted sum of the six
sub-scores with the fixed weights 0.40, 0.25, 0.15, 0.10, 0.05 and
0.05, which are exactly the weights displayed by the Results.tsx
breakdown rows and sum to 1. -/
theorem final_score_weighted_sum_in_range (c : ATSCandidateProfile)
    (j : ATSJobProfile) (h : 0 ≤ c.relevant_experience) :
    0 ≤ ats_score c j ∧ ats_score c j ≤ 100
      ∧ ats_score c j =
          (40 / 100) * skill_match_score c j + (25 / 100) * experience_score c j
            + (15 / 100) * role_fit_score c j
            + (10 / 100) * education_match_score c j
            + (5 / 100) * certifications_score c j
            + (5 / 100) * keywords_tools_score c j
      ∧ ats_score c j
          = (List.zipWith (· * ·) resultsBreakdownWeights (subScoreVector c j)).sum
      ∧ resultsBreakdownWeights.sum = 1 := by
  have hb := atsWeightedSum_bounds c j h
  have he := ats_score_eq_weightedSum c j h
  refine ⟨he ▸ hb.1, he ▸ hb.2, ?_, ?_, by norm_num [resultsBreakdownWeights]⟩
  · rw [he]
    unfold atsWeightedSum
    ring
  · rw [he]
    unfold atsWeightedSum
    simp only [resultsBreakdownWeights, subScoreVector, List.zipWith, List.sum_cons,
      List.sum_nil]
    ring

/-- Witness for C1 at the worked example of section 8 of the
specification. -/
theorem final_score_weighted_sum_in_range_witness :
    0 ≤ sampleCandidate.relevant_experience
      ∧ (0 ≤ ats_score sampleCandidate sampleJob
        ∧ ats_score sampleCandidate sampleJob ≤ 100
        ∧ ats_score sampleCandidate sampleJob =
            (40 / 100) * skill_match_score sampleCandidate sampleJob
              + (25 / 100) * experience_score sampleCandidate sampleJob
              + (15 / 100) * role_fit_score sampleCandidate sampleJob
              + (10 / 100) * education_match_score sampleCandidate sampleJob
              + (5 / 100) * certifications_score sampleCandidate sampleJob
              + (5 / 100) * keywords_tools_score sampleCandidate sampleJob
        ∧ ats_score sampleCandidate sampleJob
            = (List.zipWith (· * ·) resultsBreakdownWeights
                (subScoreVector sampleCandidate sampleJob)).sum
        ∧ resultsBreakdownWeights.sum = 1) :=
  ⟨by norm_num [sampleCandidate],
    final_score_weighted_sum_in_range sampleCandidate sampleJob
      (by norm_num [sampleCandidate])⟩

/-- C2 counterexample: a candidate whose rounded score is 70, whose
status is not SHORTLISTED, is nevertheless counted by the dashboard
header as shortlisted, although 70 is below the threshold 80. -/
theorem dashboard_count_uses_threshold_70 :
    shortlistedCountDisplay [borderlineResult] = 1
      ∧ ¬(80 ≤ borderlineResult.total_score)
      ∧ statusOf 70 ≠ ATSStatus.SHORTLISTED := by
  refine ⟨rfl, by decide, ?_⟩
  unfold statusOf
  rw [if_neg (by norm_num : ¬((80 : ℚ) ≤ 70)), if_pos (by norm_num : (50 : ℚ) ≤ 70)]
  decide

/-- C2 amended: the status banding of the final score uses the exact
thresholds 80 and 50, the ATSEvaluationPage badge variant and score
colour agree with the threshold 80, and the per-card dashboard flag
compares against 80, but the shortlisted count in the dashboard header
counts candidates with rounded score at least 70, so not every part of
the system treats a candidate as shortlisted exactly when the final
score is at least 80. -/
theorem status_banding_thresholds :
    (∀ s : ℚ,
      (statusOf s = ATSStatus.SHORTLISTED ↔ 80 ≤ s)
        ∧ (statusOf s = ATSStatus.BORDERLINE ↔ 50 ≤ s ∧ s < 80)
        ∧ (statusOf s = ATSStatus.NOT_SHORTLISTED ↔ s < 50))
      ∧ (∀ st : ATSStatus,
          getStatusBadgeVariant (statusString st) = "default"
            ↔ st = ATSStatus.SHORTLISTED)
      ∧ (∀ s : ℚ, getScoreColor s = "text-green-600" ↔ 80 ≤ s)
      ∧ (∀ r : ScoringResult, r.is_shortlisted = false
          → (isShortlistedCard r = true ↔ 80 ≤ r.total_score))
      ∧ (∀ rs : List ScoringResult,
          shortlistedCountDisplay rs
            = rs.countP (fun r => decide (70 ≤ r.total_score))) := by
  refine ⟨?_, ?_, ?_, ?_, ?_⟩
  · intro s
    unfold statusOf
    by_cases h1 : 80 ≤ s
    · rw [if_pos h1]
      exact ⟨⟨fun _ => h1, fun _ => rfl⟩,
        ⟨fun h => absurd h (by decide), fun h => absurd h1 (not_le.mpr h.2)⟩,
        ⟨fun h => absurd h (by decide),
          fun h => absurd h1 (not_le.mpr (lt_trans h (by norm_num)))⟩⟩
    · by_cases h2 : 50 ≤ s
      · rw [if_neg h1, if_pos h2]
        exact ⟨⟨fun h => absurd h (by decide), fun h => absurd h h1⟩,
          ⟨fun _ => ⟨h2, not_le.mp h1⟩, fun _ => rfl⟩,
          ⟨fun h => absurd h (by decide), fun h => absurd h2 (not_le.mpr h)⟩⟩
      · rw [if_neg h1, if_neg h2]
        exact ⟨⟨fun h => absurd h (by decide), fun h => absurd h h1⟩,
          ⟨fun h => absurd h (by decide), fun h => absurd h.1 h2⟩,
          ⟨fun _ => not_le.mp h2, fun _ => rfl⟩⟩
  · intro st
    cases st <;> simp [getStatusBadgeVariant, statusString]
  · intro s
    unfold getScoreColor
    by_cases h1 : 80 ≤ s
    · rw [if_pos h1]
      exact iff_of_true rfl h1
    · rw [if_neg h1]
      by_cases h2 : 50 ≤ s
      · rw [if_pos h2]
        exact iff_of_false (by decide) h1
      · rw [if_neg h2]
        exact iff_of_false (by decide) h1
  · intro r h
    unfold isShortlistedCard
    rw [h]
    simp
  · intro rs
    unfold shortlistedCountDisplay
    exact (List.countP_eq_length_filter _ _).symm

/-- C4: the ranking presented by the HR dashboard is the stable
descending sort of the analysis results by rounded score: it is a
permutation of the results, consecutive entries are ordered by strictly
higher score or by upload position on equal scores, and the display
step (whose comparator reads a nonexistent field and therefore never
reorders) leaves that order unchanged. -/
theorem dashboard_ranking_sorted_stable (rs : List ScoringResult)
    (hidx : rs.Pairwise (fun a b => a.idx < b.idx)) :
    (handleAnalyzeSort rs).Perm rs
      ∧ (handleAnalyzeSort rs).Pairwise rankedBefore
      ∧ sortedResults (handleAnalyzeSort rs) = handleAnalyzeSort rs := by
  refine ⟨jsStableSort_perm _ _, handleAnalyzeSort_pairwise rs hidx, ?_⟩
  unfold sortedResults sortedResultsLE
  exact jsStableSort_const_true _

/-- Witness for C4 at a concrete batch with a tie on score 80 between
upload positions 0 and 2. -/
theorem dashboard_ranking_sorted_stable_witness :
    sampleRanking.Pairwise (fun a b => a.idx < b.idx)
      ∧ ((handleAnalyzeSort sampleRanking).Perm sampleRanking
        ∧ (handleAnalyzeSort sampleRanking).Pairwise rankedBefore
        ∧ sortedResults (handleAnalyzeSort sampleRanking)
            = handleAnalyzeSort sampleRanking) :=
  ⟨by decide, dashboard_ranking_sorted_stable sampleRanking (by decide)⟩

/-- C7: the 50-character job-description validation of handleScreening:
when the final job description is shorter than 50 characters no
evaluation call is made, when it has at least 50 characters the
validation never fires, and the thrown validation error occurs exactly
when both inputs are present and the final job description is shorter
than 50 characters. -/
theorem job_description_length_validation (resumeFile : Option String)
    (jobDescText : String) (jobDescFile : Option String) :
    ((finalJobDescription jobDescText jobDescFile).length < 50
        → ∀ jd, handleScreening resumeFile jobDescText jobDescFile ≠ .evaluateCall jd)
      ∧ (50 ≤ (finalJobDescription jobDescText jobDescFile).length
        → ∀ m, handleScreening resumeFile jobDescText jobDescFile ≠ .validationError m)
      ∧ ((∃ m, handleScreening resumeFile jobDescText jobDescFile = .validationError m)
        ↔ resumeFile.isSome = true
          ∧ (0 < (jsTrim jobDescText).length ∨ jobDescFile.isSome = true)
          ∧ (finalJobDescription jobDescText jobDescFile).length < 50) := by
  unfold handleScreening
  cases hb : (resumeFile.isNone
      || !(decide (0 < (jsTrim jobDescText).length) || jobDescFile.isSome)) with
  | true =>
    rw [if_pos rfl]
    refine ⟨fun _ jd h => ScreeningOutcome.noConfusion h,
      fun _ m h => ScreeningOutcome.noConfusion h, ?_⟩
    constructor
    · rintro ⟨m, h⟩
      exact ScreeningOutcome.noConfusion h
    · rintro ⟨hsome, hjd, _⟩
      exfalso
      rcases Bool.or_eq_true_iff.mp hb with h1 | h1
      · cases resumeFile with
        | none => exact Bool.noConfusion hsome
        | some v => exact Bool.noConfusion h1
      · have h2 : (decide (0 < (jsTrim jobDescText).length)
            || jobDescFile.isSome) = false := by
          cases hx : (decide (0 < (jsTrim jobDescText).length) || jobDescFile.isSome)
          · rfl
          · rw [hx] at h1
            exact Bool.noConfusion h1
        rcases hjd with hp | hf
        · rw [Bool.or_eq_false_iff] at h2
          exact absurd hp (of_decide_eq_false h2.1)
        · rw [Bool.or_eq_false_iff] at h2
          rw [h2.2] at hf
          exact Bool.noConfusion hf
  | false =>
    rw [if_neg Bool.false_ne_true]
    by_cases hl : (finalJobDescription jobDescText jobDescFile).length < 50
    · rw [if_pos hl]
      refine ⟨fun _ jd h => ScreeningOutcome.noConfusion h,
        fun hge m h => absurd hge (by omega), ?_⟩
      constructor
      · intro _
        rw [Bool.or_eq_false_iff] at hb
        refine ⟨?_, ?_, hl⟩
        · cases resumeFile with
          | none => exact Bool.noConfusion hb.1
          | some v => rfl
        · have h3 : (decide (0 < (jsTrim jobDescText).length)
              || jobDescFile.isSome) = true := by
            have hnot := hb.2
            cases hx : (decide (0 < (jsTrim jobDescText).length) || jobDescFile.isSome)
            · rw [hx] at hnot
              exact Bool.noConfusion hnot
            · rfl
          rcases Bool.or_eq_true_iff.mp h3 with hx | hx
          · exact Or.inl (of_decide_eq_true hx)
          · exact Or.inr hx
      · intro _
        exact ⟨_, rfl⟩
    · rw [if_neg hl]
      refine ⟨fun hlt _ _ => absurd hlt hl,
        fun _ m h => ScreeningOutcome.noConfusion h, ?_⟩
      constructor
      · rintro ⟨m, h⟩
        exact ScreeningOutcome.noConfusion h
      · rintro ⟨_, _, hlen⟩
        exact absurd hlen hl

/-- Witness for C7: with a resume present and a pasted job description
of fewer than 50 characters, handleScreening raises the validation
error. -/
theorem job_description_length_validation_witness :
    ∃ m, handleScreening (some "resume.pdf") "short job description" none
        = ScreeningOutcome.validationError m :=
  (job_description_length_validation (some "resume.pdf")
      "short job description" none).2.2.mpr
    ⟨rfl, Or.inl (by decide), by decide⟩

/-- Witness for C2 amended at the concrete borderline entry: with the
shortlist flag false, the per-card dashboard flag agrees with the
threshold 80. -/
theorem status_banding_thresholds_witness :
    borderlineResult.is_shortlisted = false
      ∧ (isShortlistedCard borderlineResult = true
        ↔ 80 ≤ borderlineResult.total_score) :=
  ⟨rfl, status_banding_thresholds.2.2.2.1 borderlineResult rfl⟩
